import Mathlib

/-!
Verification development for the CSV-analysis backend (backend/analysis.py,
backend/main.py).  The Python code is shallowly embedded: pandas dataframes
become association lists of typed columns, float results become an idealized
numeric type (finite rationals plus symbolic square roots and correlation
quotients, plus non-finite markers), fallible code returns Except, and the
filesystem side effects of the HTTP layer become explicit state passing.
Floating point arithmetic is idealized as exact arithmetic over the rationals
and reals; NaN and infinity appear only through the explicit markers the code
tests for.
-/

namespace CsvBackend

/- ### Code-point lexicographic string order (Python sorted on str). -/

/-- Boolean code-point lexicographic less-or-equal on char lists, mirroring how
Python compares strings. -/
def clistLe : List Char → List Char → Bool
  | [], _ => true
  | _ :: _, [] => false
  | a :: as, b :: bs => if a = b then clistLe as bs else decide (a < b)

/-- Boolean string less-or-equal used wherever the Python code sorts by name. -/
def strLe (s t : String) : Bool := clistLe s.data t.data

/- ### Idealized IEEE double values.

A float produced by the analysis pipeline is either an exactly representable
finite value (a rational, the square root of a rational, or a Pearson
correlation quotient written as its three centered sums), or one of the
non-finite markers NaN, +inf, -inf that the code normalizes away. -/

inductive NumF where
  | fin (q : ℚ)
  | sqrtv (q : ℚ)
  | corrv (sxy sxx syy : ℚ)
  | nan
  | inf
  | ninf
deriving DecidableEq

/-- A value is finite exactly when it is not one of the NaN and infinity
markers replaced by the code. -/
def NumF.isFinite : NumF → Bool
  | .fin _ | .sqrtv _ | .corrv _ _ _ => true
  | .nan | .inf | .ninf => false

/-- Real interpretation of a finite idealized float.  The non-finite markers
are given a junk value; they are only interpreted after the code has already
filtered them out. -/
noncomputable def NumF.toReal : NumF → ℝ
  | .fin q => (q : ℝ)
  | .sqrtv q => Real.sqrt (q : ℝ)
  | .corrv sxy sxx syy => (sxy : ℝ) / Real.sqrt ((sxx : ℝ) * (syy : ℝ))
  | .nan | .inf | .ninf => 0

/- ### Data model: pandas dataframes from read_csv. -/

/-- Column dtype as inferred by read_csv. -/
inductive Dtype where
  | int64
  | float64
  | object
  | bool
deriving DecidableEq

/-- The string label produced by str(dtype) in perform_eda. -/
def Dtype.label : Dtype → String
  | .int64 => "int64"
  | .float64 => "float64"
  | .object => "object"
  | .bool => "bool"

/-- Membership in select_dtypes(include=["number"]): bool is excluded. -/
def Dtype.isNumber : Dtype → Bool
  | .int64 | .float64 => true
  | .object | .bool => false

/-- Membership in pd.api.types.is_numeric_dtype: bool counts as numeric. -/
def Dtype.isNumericDtype : Dtype → Bool
  | .int64 | .float64 | .bool => true
  | .object => false

/-- One cell of a column: a missing marker or a typed scalar. -/
inductive Cell where
  | na
  | num (q : ℚ)
  | str (s : String)
  | bool (b : Bool)
deriving DecidableEq

/-- True exactly on the missing marker (pd.isnull on a cell). -/
def Cell.isna : Cell → Bool
  | .na => true
  | _ => false

/-- Numeric view of a cell. -/
def Cell.toQ : Cell → Option ℚ
  | .num q => some q
  | _ => none

/-- One named pandas column. -/
structure Col where
  dtype : Dtype
  cells : List Cell
deriving DecidableEq

/-- An in-memory dataset: named columns of equal length with distinct names
(read_csv mangles duplicate headers). -/
structure DataFrame where
  cols : List (String × Col)
  nrows : Nat
  len_eq : ∀ p ∈ cols, p.2.cells.length = nrows
  names_nodup : (cols.map Prod.fst).Nodup

def DataFrame.names (df : DataFrame) : List String := df.cols.map Prod.fst

/-- df.select_dtypes(include=["number"]) keeps numeric columns in order. -/
def DataFrame.numericCols (df : DataFrame) : List (String × Col) :=
  df.cols.filter fun p => p.2.dtype.isNumber

/-- df.select_dtypes(include=["object", "category", "bool"]). -/
def DataFrame.catCols (df : DataFrame) : List (String × Col) :=
  df.cols.filter fun p => !p.2.dtype.isNumber

def DataFrame.lookupCol (df : DataFrame) (c : String) : Option Col :=
  df.cols.lookup c

/- ### Sorting association lists by key (Python sorted(d.items(), key=fst)). -/

/-- Key order on association-list entries. -/
def keyLE {β : Type} (a b : String × β) : Prop := strLe a.1 b.1 = true

instance {β : Type} : DecidableRel (@keyLE β) :=
  fun a b => inferInstanceAs (Decidable (strLe a.1 b.1 = true))

/-- Stable sort of an association list by key, modelling Python sorted with a
key function (sorted is stable; dict iteration preserves this order). -/
def sortByKey {β : Type} (l : List (String × β)) : List (String × β) :=
  List.insertionSort keyLE l

/-- String order used for sorted(list-of-names). -/
def leS (a b : String) : Prop := strLe a b = true

instance : DecidableRel leS := fun a b => inferInstanceAs (Decidable (strLe a b = true))

/-- sorted(df.columns.tolist()). -/
def sortStrings (l : List String) : List String := List.insertionSort leS l

/- ### perform_eda (analysis.py lines 20 to 62). -/

/-- df.isnull().sum() for one column: mark each cell missing or not, then sum
the marks.  The subsequent .replace([np.nan], None) is the identity here
because the sums form an integer series with no NaN. -/
def isnullSum (c : Col) : Nat := (c.cells.map Cell.isna).count true

/-- Rows where both columns hold a present numeric value; pandas corr uses
pairwise-complete observations. -/
def completePairs (xs ys : List Cell) : List (ℚ × ℚ) :=
  (xs.zip ys).filterMap fun p =>
    match p.1.toQ, p.2.toQ with
    | some x, some y => some (x, y)
    | _, _ => none

/-- Centered sums of a paired sample: sum of products of deviations and the
two sums of squared deviations.  On the empty sample all three are zero. -/
def corrSums (ps : List (ℚ × ℚ)) : ℚ × ℚ × ℚ :=
  let n : ℚ := (ps.length : ℚ)
  let mx := (ps.map Prod.fst).sum / n
  let my := (ps.map Prod.snd).sum / n
  ((ps.map fun p => (p.1 - mx) * (p.2 - my)).sum,
   (ps.map fun p => (p.1 - mx) ^ 2).sum,
   (ps.map fun p => (p.2 - my) ^ 2).sum)

/-- Pearson coefficient of a paired sample as an idealized float: the quotient
of the centered sums, which is NaN exactly when the denominator vanishes
(constant column or no complete pair). -/
def corrOfPairs (ps : List (ℚ × ℚ)) : NumF :=
  let s := corrSums ps
  if s.2.1 * s.2.2 = 0 then .nan else .corrv s.1 s.2.1 s.2.2

/-- One entry of numeric_df.corr(). -/
def corrCell (x y : Col) : NumF := corrOfPairs (completePairs x.cells y.cells)

/-- The .replace([np.nan, np.inf, -np.inf], None) step on a float value. -/
def replaceNonFinite (v : NumF) : Option NumF :=
  if v.isFinite then some v else none

/- ### describe(include="all"), modelled per column and stat name. -/

/-- One cell of the describe table. -/
inductive SVal where
  | num (v : NumF)
  | strv (s : String)
  | boolv (b : Bool)
deriving DecidableEq

/-- The .replace([np.nan, np.inf, -np.inf], None) step on a describe cell:
only non-finite floats become None. -/
def replaceNonFiniteS (v : SVal) : Option SVal :=
  match v with
  | .num x => if x.isFinite then some (.num x) else none
  | v => some v

/-- Present (non-missing) cells of a column. -/
def Col.presentCells (c : Col) : List Cell := c.cells.filter fun x => !x.isna

/-- Present numeric values of a column. -/
def Col.presentQ (c : Col) : List ℚ := c.cells.filterMap Cell.toQ

/-- Linear-interpolation quantile of a sample, as numpy percentile does for
describe.  Assumes a nonempty sample. -/
def quantileQ (l : List ℚ) (p : ℚ) : ℚ :=
  let sorted := List.insertionSort (· ≤ ·) l
  let n := sorted.length
  let pos := p * ((n : ℚ) - 1)
  let i := pos.floor.toNat
  let frac := pos - (i : ℚ)
  if i + 1 < n then sorted.getD i 0 + (sorted.getD (i + 1) 0 - sorted.getD i 0) * frac
  else sorted.getD i 0

/-- First-seen distinct values of a list of cells. -/
def dedupFirstSeen (l : List Cell) : List Cell :=
  l.foldl (fun acc c => if acc.contains c then acc else acc ++ [c]) []

/-- value_counts of a column without missing values: distinct present values
with their multiplicities, sorted by descending count (stable, first-seen
order on ties). -/
def valueCountsOf (cells : List Cell) : List (Cell × Nat) :=
  let present := cells.filter fun c => !c.isna
  let tallies := (dedupFirstSeen present).map fun v => (v, present.count v)
  List.insertionSort (fun a b : Cell × Nat => b.2 ≤ a.2) tallies

/-- Numeric describe stats, NaN where pandas produces NaN (empty sample for
count-dependent stats, fewer than two points for std). -/
def numericStat (c : Col) (stat : String) : SVal :=
  let vals := c.presentQ
  let n := vals.length
  let mean := vals.sum / (n : ℚ)
  if stat = "count" then .num (.fin (n : ℚ))
  else if stat = "mean" then (if n = 0 then .num .nan else .num (.fin mean))
  else if stat = "std" then
    (if n ≤ 1 then .num .nan
     else .num (.sqrtv ((vals.map fun x => (x - mean) ^ 2).sum / ((n : ℚ) - 1))))
  else if stat = "min" then
    (if n = 0 then .num .nan else .num (.fin ((List.insertionSort (· ≤ ·) vals).getD 0 0)))
  else if stat = "25%" then (if n = 0 then .num .nan else .num (.fin (quantileQ vals (1/4))))
  else if stat = "50%" then (if n = 0 then .num .nan else .num (.fin (quantileQ vals (1/2))))
  else if stat = "75%" then (if n = 0 then .num .nan else .num (.fin (quantileQ vals (3/4))))
  else if stat = "max" then
    (if n = 0 then .num .nan
     else .num (.fin ((List.insertionSort (· ≤ ·) vals).getD (n - 1) 0)))
  else .num .nan

/-- Categorical view of a scalar cell for the describe top row. -/
def cellSVal : Cell → SVal
  | .na => .num .nan
  | .num q => .num (.fin q)
  | .str s => .strv s
  | .bool b => .boolv b

/-- Object and bool describe stats: count, unique, top, freq; NaN elsewhere. -/
def objectStat (c : Col) (stat : String) : SVal :=
  let vc := valueCountsOf c.cells
  if stat = "count" then .num (.fin ((c.presentCells.length : ℚ)))
  else if stat = "unique" then .num (.fin ((vc.length : ℚ)))
  else if stat = "top" then
    (match vc.head? with
     | some p => cellSVal p.1
     | none => .num .nan)
  else if stat = "freq" then
    (match vc.head? with
     | some p => .num (.fin ((p.2 : ℚ)))
     | none => .num .nan)
  else .num .nan

/-- One cell of describe(include="all"). -/
def describeEntry (c : Col) (stat : String) : SVal :=
  if c.dtype.isNumber then numericStat c stat else objectStat c stat

/-- The index rows of describe(include="all") for this dataframe: numeric
stats for all-numeric frames, categorical stats for frames without numeric
columns, the union for mixed frames. -/
def statIndex (df : DataFrame) : List String :=
  let hasNum := df.cols.any fun p => p.2.dtype.isNumber
  let hasCat := df.cols.any fun p => !p.2.dtype.isNumber
  if hasNum && hasCat then
    ["count", "unique", "top", "freq", "mean", "std", "min", "25%", "50%", "75%", "max"]
  else if hasNum then ["count", "mean", "std", "min", "25%", "50%", "75%", "max"]
  else ["count", "unique", "top", "freq"]

/- ### The EDA summary value. -/

structure EDA where
  shape : Nat × Nat
  columns : List String
  dtypes : List (String × String)
  missing_values : List (String × Nat)
  correlation : List (String × List (String × Option NumF))
  summary_stats : List (String × List (String × Option SVal))

/-- perform_eda from analysis.py: shape, alphabetically sorted column list,
sorted dtype labels, sorted missing counts, the replaced correlation matrix
sorted outside and inside, and the replaced describe table (empty when
describe raises, which happens on a dataframe without columns). -/
def perform_eda (df : DataFrame) : EDA :=
  { shape := (df.nrows, df.cols.length)
    columns := sortStrings df.names
    dtypes := sortByKey (df.cols.map fun p => (p.1, p.2.dtype.label))
    missing_values := sortByKey (df.cols.map fun p => (p.1, isnullSum p.2))
    correlation :=
      sortByKey ((df.numericCols).map fun p =>
        (p.1, sortByKey ((df.numericCols).map fun q =>
          (q.1, replaceNonFinite (corrCell p.2 q.2)))))
    summary_stats :=
      if df.cols.isEmpty then []
      else df.cols.map fun p =>
        (p.1, (statIndex df).map fun s => (s, replaceNonFiniteS (describeEntry p.2 s))) }

/- ### generate_chart (analysis.py lines 195 to 330). -/

/-- Validation failures and the post-validation heatmap domain error raised
by generate_chart (all ValueError in the source). -/
inductive ChartErr where
  | unsupported (t : String)
  | badCount (t : String) (mn : Nat) (mx : Option Nat) (given : Nat)
  | colNotFound (c : String)
  | heatmapLt2
  | notImplemented (t : String)
deriving DecidableEq

/-- Semantic payload of the rendered figure, one constructor per branch of
the elif chain. -/
inductive PlotData where
  | histogram (vals : List Cell)
  | kde (vals : List Cell)
  | box (vals : List Cell)
  | violin (vals : List Cell)
  | countplot (order : List Cell)
  | pie (vc : List (Cell × Nat))
  | scatter (xs ys : List Cell)
  | line (xs ys : List Cell)
  | barMean (groups : List (Cell × Option ℚ))
  | barCount (groups : List (Cell × Nat))
  | regplot (xs ys : List Cell)
  | pairplot (rows : List (List Cell)) (subsampled : Bool)
  | heatmap (m : List (String × List (String × NumF)))
deriving DecidableEq

/-- Result of a generate_chart call together with the image files it wrote. -/
structure ChartOutcome where
  result : Except ChartErr (String × PlotData)
  written : List String

/-- The CHART_REQ column-count table: minimum and optional maximum. -/
def chartReq (t : String) : Option (Nat × Option Nat) :=
  if t = "histogram" then some (1, some 1)
  else if t = "kde" then some (1, some 1)
  else if t = "box" then some (1, some 1)
  else if t = "violin" then some (1, some 1)
  else if t = "scatter" then some (2, some 2)
  else if t = "line" then some (2, some 2)
  else if t = "bar" then some (2, some 2)
  else if t = "countplot" then some (1, some 1)
  else if t = "pie" then some (1, some 1)
  else if t = "pairplot" then some (2, none)
  else if t = "heatmap" then some (2, none)
  else if t = "regplot" then some (2, some 2)
  else none

/-- The column-count check: len within the min and max bounds, or at least
min when max is unbounded. -/
def countOk (mn : Nat) (mx : Option Nat) (k : Nat) : Bool :=
  match mx with
  | none => decide (mn ≤ k)
  | some m => decide (mn ≤ k) && decide (k ≤ m)

def Col.empty : Col := ⟨.object, []⟩

def DataFrame.getColD (df : DataFrame) (c : String) : Col :=
  (df.lookupCol c).getD Col.empty

/- Groupby helpers for the bar branch. -/

/-- Constructor rank used to give cells a total order for groupby key sorting
(real pandas only ever compares keys of one dtype). -/
def Cell.rank : Cell → Nat
  | .na => 0
  | .num _ => 1
  | .str _ => 2
  | .bool _ => 3

/-- Total Boolean order on cells: by constructor rank, then by value. -/
def cellLeB (a b : Cell) : Bool :=
  if a.rank ≠ b.rank then decide (a.rank < b.rank)
  else
    match a, b with
    | .num x, .num y => decide (x ≤ y)
    | .str x, .str y => strLe x y
    | .bool x, .bool y => decide (x ≤ y)
    | _, _ => true

/-- Ascending sorted distinct non-missing keys: df.groupby(x) with the
default sort=True and dropna=True. -/
def groupKeys (xs : List Cell) : List Cell :=
  List.insertionSort (fun a b => cellLeB a b = true)
    (dedupFirstSeen (xs.filter fun c => !c.isna))

/-- The y cells whose row has the given x key. -/
def groupYs (xs ys : List Cell) (k : Cell) : List Cell :=
  (xs.zip ys).filterMap fun p => if p.1 = k then some p.2 else none

/-- Descending order on optional means, missing last: sort_values with
ascending=False and the default na_position. -/
def optGeB : Option ℚ → Option ℚ → Bool
  | some a, some b => decide (b ≤ a)
  | some _, none => true
  | none, some _ => false
  | none, none => true

/-- Descending-mean order on bar groups. -/
def meanDesc (a b : Cell × Option ℚ) : Prop := optGeB a.2 b.2 = true

instance : DecidableRel meanDesc := fun a b => inferInstanceAs (Decidable (_ = true))

/-- Descending-count order on bar groups. -/
def countDesc (a b : Cell × Nat) : Prop := b.2 ≤ a.2

instance : DecidableRel countDesc := fun a b => inferInstanceAs (Decidable (b.2 ≤ a.2))

/-- Numeric value a cell contributes to a mean reduction: pandas coerces
booleans to 1 and 0 when averaging, so a bool-dtype y column (which
is_numeric_dtype routes to the mean branch) gets the fraction of True per
group; missing cells are skipped. -/
def Cell.toQMean : Cell → Option ℚ
  | .num q => some q
  | .bool b => some (if b then 1 else 0)
  | _ => none

/-- df.groupby(x)[y].mean().sort_values(ascending=False)[:30] — the mean of y
per x group (NaN for a group without usable y values), top 30 by descending
mean. -/
def barMeanData (xs ys : List Cell) : List (Cell × Option ℚ) :=
  let groups := (groupKeys xs).map fun k =>
    let vals := (groupYs xs ys k).filterMap Cell.toQMean
    (k, if vals.length = 0 then none else some (vals.sum / (vals.length : ℚ)))
  (List.insertionSort meanDesc groups).take 30

/-- df.groupby(x)[y].count().sort_values(ascending=False)[:30] — the count of
non-missing y per x group, top 30 by descending count. -/
def barCountData (xs ys : List Cell) : List (Cell × Nat) :=
  let groups := (groupKeys xs).map fun k =>
    (k, (groupYs xs ys k).countP fun c => !c.isna)
  (List.insertionSort countDesc groups).take 30

/- Selection helpers for pairplot and heatmap. -/

/-- df[columns]: the requested columns in request order (all present after
validation). -/
def selectCols (df : DataFrame) (cols : List String) : List (String × Col) :=
  cols.filterMap fun c =>
    match df.lookupCol c with
    | some col => some (c, col)
    | none => none

/-- Rows of a selection with no missing cell (DataFrame.dropna on rows). -/
def completeRowsC (sel : List (String × Col)) (n : Nat) : List (List Cell) :=
  (List.range n).filterMap fun i =>
    let r := sel.map fun p => p.2.cells.getD i .na
    if r.any Cell.isna then none else some r

/-- Numeric rows of a numeric selection with no missing cell. -/
def completeRowsQ (sel : List (String × Col)) (n : Nat) : List (List ℚ) :=
  (List.range n).filterMap fun i =>
    sel.mapM fun p => (p.2.cells.getD i .na).toQ

/-- sel.corr() over the complete rows of a numeric selection: the full
pairwise matrix of Pearson coefficients, keyed by column name. -/
def heatmapMatrix (sel : List (String × Col)) (n : Nat) :
    List (String × List (String × NumF)) :=
  let rows := completeRowsQ sel n
  (List.range sel.length).map fun i =>
    ((sel.getD i ("", Col.empty)).1, (List.range sel.length).map fun j =>
      ((sel.getD j ("", Col.empty)).1,
       corrOfPairs (rows.map fun r => (r.getD i 0, r.getD j 0))))

/-- The elif chain of generate_chart after validation: renders one figure and
saves it to the already-built path.  The heatmap branch can still fail after
validation; every successful branch saves exactly one file. -/
def renderChart (df : DataFrame) (chart_type : String) (columns : List String)
    (path : String) : ChartOutcome :=
  let col0 := columns.getD 0 ""
  let c0 := df.getColD col0
  if chart_type = "histogram" then ⟨.ok (path, .histogram c0.presentCells), [path]⟩
  else if chart_type = "kde" then ⟨.ok (path, .kde c0.presentCells), [path]⟩
  else if chart_type = "box" then ⟨.ok (path, .box c0.presentCells), [path]⟩
  else if chart_type = "violin" then ⟨.ok (path, .violin c0.presentCells), [path]⟩
  else if chart_type = "countplot" then
    ⟨.ok (path, .countplot (((valueCountsOf c0.cells).map Prod.fst).take 30)), [path]⟩
  else if chart_type = "pie" then ⟨.ok (path, .pie (valueCountsOf c0.cells)), [path]⟩
  else if chart_type = "scatter" then
    ⟨.ok (path, .scatter c0.cells (df.getColD (columns.getD 1 "")).cells), [path]⟩
  else if chart_type = "line" then
    ⟨.ok (path, .line c0.cells (df.getColD (columns.getD 1 "")).cells), [path]⟩
  else if chart_type = "bar" then
    let y := columns.getD 1 ""
    let ycol := df.getColD y
    if ycol.dtype.isNumericDtype then
      ⟨.ok (path, .barMean (barMeanData c0.cells ycol.cells)), [path]⟩
    else
      ⟨.ok (path, .barCount (barCountData c0.cells ycol.cells)), [path]⟩
  else if chart_type = "regplot" then
    ⟨.ok (path, .regplot c0.cells (df.getColD (columns.getD 1 "")).cells), [path]⟩
  else if chart_type = "pairplot" then
    let rows := completeRowsC (selectCols df columns) df.nrows
    ⟨.ok (path, .pairplot rows (decide (rows.length > 1000))), [path]⟩
  else if chart_type = "heatmap" then
    let sel := (selectCols df columns).filter fun p => p.2.dtype.isNumber
    if sel.length < 2 then ⟨.error .heatmapLt2, []⟩
    else ⟨.ok (path, .heatmap (heatmapMatrix sel df.nrows)), [path]⟩
  else ⟨.error (.notImplemented chart_type), []⟩

/-- generate_chart: chart-type check against CHART_REQ, column-count check,
column-existence check (first offender, in request order), then the filename
built from a uniqueness token, the chart type and the sanitized column names,
then the render dispatch. -/
def generate_chart (df : DataFrame) (chart_type : String) (columns : List String)
    (out_dir tok : String) : ChartOutcome :=
  match chartReq chart_type with
  | none => ⟨.error (.unsupported chart_type), []⟩
  | some (mn, mx) =>
    if !countOk mn mx columns.length then
      ⟨.error (.badCount chart_type mn mx columns.length), []⟩
    else
      match columns.find? fun c => !(df.names.contains c) with
      | some c => ⟨.error (.colNotFound c), []⟩
      | none =>
        let safe_cols := String.intercalate "_" (columns.map fun c => c.replace " " "_")
        let path := out_dir ++ "/" ++ tok ++ "_" ++ chart_type ++ "_" ++ safe_cols ++ ".png"
        renderChart df chart_type columns path

/- ### main.py: the robust CSV reader and the upload endpoint. -/

/-- The three read_csv attempts of _read_csv_bytes are external library calls
on raw bytes; the embedding takes their outcomes as arguments and models the
fallback control flow: first success wins, and when all three fail the last
exception is re-raised. -/
def readCsvBytes (a1 a2 a3 : Except String DataFrame) : Except String DataFrame :=
  match a1 with
  | .ok df => .ok df
  | .error _ =>
    match a2 with
    | .ok df => .ok df
    | .error _ =>
      match a3 with
      | .ok df => .ok df
      | .error e3 => .error e3

/-- Process state of the HTTP layer: the global dataset reference, the global
dataset name, and the plots directory tree (directory path to file list). -/
structure ServerState where
  df_global : Option DataFrame
  dataset_name_global : Option String
  fs : String → Option (List String)

def plotsRoot : String := "plots"

/-- Python str.lower, character by character. -/
def pyLower (s : String) : String := String.mk (s.data.map Char.toLower)

/-- Python str.endswith as a character-list suffix test. -/
def pyEndsWith (s suffix : String) : Bool := suffix.data.isSuffixOf s.data

/-- Python str.strip: drop surrounding whitespace. -/
def pyStrip (s : String) : String :=
  String.mk (((s.data.dropWhile Char.isWhitespace).reverse.dropWhile
    Char.isWhitespace).reverse)

/-- os.path.splitext stem of a filename known to end in ".csv" in some case:
the leading-dot-only stems are not treated as extensions by splitext. -/
def splitextStem (filename : String) : String :=
  let stem := filename.dropRight 4
  if stem.data.all (· = '.') then filename else stem

/-- The dataset_name_safe sanitizer: keep alphanumerics, spaces, underscores
and hyphens, then strip surrounding whitespace. -/
def sanitizeName (s : String) : String :=
  pyStrip (String.mk (s.data.filter fun c => c.isAlphanum || c = ' ' || c = '_' || c = '-'))

/-- generate_all_plots: the default chart battery.  Only the produced file
paths matter to the claims; each artifact name is a fresh token plus a
descriptive prefix, in the order the source creates them.  The pairplot step
is best-effort in the source (its failures are swallowed); here rendering is
total so it appears whenever its size conditions hold. -/
def generateAllPlots (df : DataFrame) (save_dir : String) (toks : Nat → String) :
    List String :=
  let numeric := df.numericCols
  let cat := df.catCols
  let hist := (numeric.take 6).map fun p => "hist_" ++ p.1
  let kde := (numeric.take 1).map fun p => "kde_" ++ p.1
  let box := (numeric.take 4).map fun p => "box_" ++ p.1
  let violin := (numeric.take 1).map fun p => "violin_" ++ p.1
  let cnt := (cat.take 3).map fun p => "count_" ++ p.1
  let pie := (cat.take 2).filterMap fun p =>
    let vc := valueCountsOf p.2.cells
    if 1 < vc.length ∧ vc.length ≤ 8 then some ("pie_" ++ p.1) else none
  let heat := if numeric.length > 1 then ["heatmap"] else []
  let pair := if 2 ≤ numeric.length ∧ numeric.length ≤ 6 ∧ df.nrows ≤ 5000 then
      ["pairplot"] else []
  let pres := hist ++ kde ++ box ++ violin ++ cnt ++ pie ++ heat ++ pair
  pres.enum.map fun ip => save_dir ++ "/" ++ toks ip.1 ++ "_" ++ ip.2 ++ ".png"

/-- HTTP response of the upload endpoint, reduced to the model: client error
with detail, or success with the safe dataset name, the EDA summary and the
plot files (insight generation is an external call outside the model). -/
inductive UploadResp where
  | err (status : Nat) (detail : String)
  | ok (dataset : String) (eda : EDA) (plots : List String)

/-- upload_csv: extension check, name sanitization, then the dataset plot
directory is deleted and recreated empty, then the bytes are parsed; on parse
failure a 400 is raised with the last error message and the globals keep
their previous values; on success the globals are replaced and the default
plots are written into the fresh directory. -/
def upload_csv (st : ServerState) (filename : String)
    (a1 a2 a3 : Except String DataFrame) (toks : Nat → String) :
    UploadResp × ServerState :=
  if !(pyEndsWith (pyLower filename) ".csv") then
    (.err 400 "Only CSV files are supported.", st)
  else
    let dataset_name := splitextStem filename
    let safe := sanitizeName dataset_name
    let dir := plotsRoot ++ "/" ++ safe
    let fs1 : String → Option (List String) := fun d => if d = dir then some [] else st.fs d
    match readCsvBytes a1 a2 a3 with
    | .error e => (.err 400 ("Failed to read CSV: " ++ e), { st with fs := fs1 })
    | .ok df =>
      let eda := perform_eda df
      let files := generateAllPlots df dir toks
      let fs2 : String → Option (List String) := fun d => if d = dir then some files else fs1 d
      (.ok safe eda files,
       { df_global := some df, dataset_name_global := some safe, fs := fs2 })

/- ### The type-coercion utility _to_py (analysis.py lines 10 to 18). -/

/-- Scalars of unknown origin type reaching _to_py: numpy numerics, plain
Python numerics, strings, None, the NaT marker, and array-like values on
which pd.isna does not return a single Boolean. -/
inductive Scalar where
  | npInt (n : Int)
  | npFloat (x : NumF)
  | pyInt (n : Int)
  | pyFloat (x : NumF)
  | pyStr (s : String)
  | pyNone
  | npNaT
  | arrayLike (tag : Nat)
deriving DecidableEq

/-- isinstance(v, (np.integer, np.floating)). -/
def isNpNumeric : Scalar → Bool
  | .npInt _ | .npFloat _ => true
  | _ => false

/-- The .item() conversion of a numpy numeric scalar to the plain scalar of
equal value; identity elsewhere. -/
def plainOf : Scalar → Scalar
  | .npInt n => .pyInt n
  | .npFloat x => .pyFloat x
  | v => v

/-- The missing-value markers pd.isna recognizes on scalars, including NaN
floats of either origin. -/
def isMissingMarker : Scalar → Bool
  | .pyNone | .npNaT => true
  | .npFloat .nan | .pyFloat .nan => true
  | _ => false

/-- pd.isna used as an if-condition: a Boolean on scalars, an exception on
array-like input (ambiguous truth value). -/
def pdIsna (v : Scalar) : Except Unit Bool :=
  match v with
  | .arrayLike _ => .error ()
  | v => .ok (isMissingMarker v)

/-- The _to_py helper: the numpy-numeric isinstance check runs first and
returns .item(); only then is pd.isna consulted; any exception inside the
try block falls back to returning the value unchanged. -/
def _to_py (v : Scalar) : Scalar :=
  match v with
  | .npInt n => .pyInt n
  | .npFloat x => .pyFloat x
  | v =>
    match pdIsna v with
    | .ok true => .pyNone
    | .ok false => v
    | .error _ => v

/- ### String order bridge: the Boolean comparator agrees with the Mathlib
lexicographic order on String. -/

lemma clistLe_iff : ∀ s t : List Char, clistLe s t = true ↔ s ≤ t := by
  intro s
  induction s with
  | nil =>
    intro t
    simp only [clistLe]
    constructor
    · intro _
      exact not_lt.mp fun h => by cases h
    · intro _
      trivial
  | cons a as ih =>
    intro t
    cases t with
    | nil =>
      simp only [clistLe]
      constructor
      · intro h
        cases h
      · intro h
        exact absurd List.Lex.nil (not_lt.mpr h)
    | cons b bs =>
      by_cases hab : a = b
      · subst hab
        have hred : clistLe (a :: as) (a :: bs) = clistLe as bs := by
          simp [clistLe]
        rw [hred, ih bs]
        constructor
        · intro h
          refine not_lt.mp fun hlt => ?_
          cases hlt with
          | cons h' => exact absurd h' (not_lt.mpr h)
          | rel h' => exact absurd h' (lt_irrefl a)
        · intro h
          refine not_lt.mp fun hlt => not_lt.mpr h (List.Lex.cons hlt)
      · simp only [clistLe, if_neg hab, decide_eq_true_eq]
        constructor
        · intro h
          refine not_lt.mp fun hlt => ?_
          cases hlt with
          | cons h' => exact hab rfl
          | rel h' => exact absurd h (asymm h')
        · intro h
          rcases lt_trichotomy a b with h' | h' | h'
          · exact h'
          · exact absurd h' hab
          · exact absurd (List.Lex.rel h') (not_lt.mpr h)

lemma strLe_iff (s t : String) : strLe s t = true ↔ s ≤ t := by
  rw [String.le_iff_toList_le]
  exact clistLe_iff s.data t.data

instance {β : Type} : IsTotal (String × β) keyLE where
  total a b := by
    rcases le_total a.1 b.1 with h | h
    · exact Or.inl ((strLe_iff _ _).mpr h)
    · exact Or.inr ((strLe_iff _ _).mpr h)

instance {β : Type} : IsTrans (String × β) keyLE where
  trans _ _ _ hab hbc :=
    (strLe_iff _ _).mpr (le_trans ((strLe_iff _ _).mp hab) ((strLe_iff _ _).mp hbc))

instance : IsTotal String leS where
  total a b := by
    rcases le_total a b with h | h
    · exact Or.inl ((strLe_iff _ _).mpr h)
    · exact Or.inr ((strLe_iff _ _).mpr h)

instance : IsTrans String leS where
  trans _ _ _ hab hbc :=
    (strLe_iff _ _).mpr (le_trans ((strLe_iff _ _).mp hab) ((strLe_iff _ _).mp hbc))

/- ### Sorting and lookup lemmas for the association lists of perform_eda. -/

lemma sortStrings_sorted (l : List String) : List.Sorted (· ≤ ·) (sortStrings l) :=
  (List.sorted_insertionSort leS l).imp fun h => (strLe_iff _ _).mp h

lemma sortByKey_sorted_keys {β : Type} (l : List (String × β)) :
    List.Sorted (· ≤ ·) ((sortByKey l).map Prod.fst) := by
  have h := List.sorted_insertionSort keyLE l
  rw [List.Sorted, List.pairwise_map]
  exact h.imp fun hab => (strLe_iff _ _).mp hab

lemma sortByKey_perm {β : Type} (l : List (String × β)) : List.Perm (sortByKey l) l :=
  List.perm_insertionSort keyLE l

lemma lookup_eq_of_perm {β : Type} {l₁ l₂ : List (String × β)} (h : List.Perm l₁ l₂) :
    (l₁.map Prod.fst).Nodup → ∀ c, l₁.lookup c = l₂.lookup c := by
  induction h with
  | nil => intro _ _; rfl
  | @cons p as bs h ih =>
    intro hnd c
    have hnd2 : (as.map Prod.fst).Nodup := by
      simp only [List.map_cons, List.nodup_cons] at hnd
      exact hnd.2
    by_cases hc : c = p.1
    · simp [List.lookup, hc]
    · simp only [List.lookup]
      rw [show (c == p.1) = false from beq_eq_false_iff_ne.mpr hc]
      exact ih hnd2 c
  | @swap p q l =>
    intro hnd c
    have hne : q.1 ≠ p.1 := by
      simp only [List.map_cons, List.nodup_cons, List.mem_cons] at hnd
      exact fun h => hnd.1 (Or.inl h)
    by_cases hq : c = q.1
    · have hp : (c == p.1) = false := beq_eq_false_iff_ne.mpr (hq ▸ hne)
      simp [List.lookup, hq, hp, beq_eq_false_iff_ne.mpr hne]
    · by_cases hp : c = p.1
      · simp [List.lookup, hp, show (c == q.1) = false from beq_eq_false_iff_ne.mpr hq,
          beq_eq_false_iff_ne.mpr (Ne.symm hne)]
      · simp [List.lookup, show (c == q.1) = false from beq_eq_false_iff_ne.mpr hq,
          show (c == p.1) = false from beq_eq_false_iff_ne.mpr hp]
  | @trans as bs cs h1 h2 ih1 ih2 =>
    intro hnd c
    rw [ih1 hnd c, ih2 (((h1.map Prod.fst).nodup_iff).mp hnd) c]

lemma lookup_sortByKey {β : Type} (l : List (String × β))
    (h : (l.map Prod.fst).Nodup) (c : String) :
    (sortByKey l).lookup c = l.lookup c :=
  lookup_eq_of_perm (sortByKey_perm l)
    ((((sortByKey_perm l).map Prod.fst).nodup_iff).mpr h) c

lemma lookup_map_entry {α β : Type} (f : String × α → β) :
    ∀ (l : List (String × α)), (l.map Prod.fst).Nodup →
      ∀ p ∈ l, (l.map fun q => (q.1, f q)).lookup p.1 = some (f p) := by
  intro l
  induction l with
  | nil => intro _ p hp; cases hp
  | cons q rest ih =>
    intro hnd p hp
    have hnd2 : (rest.map Prod.fst).Nodup := by
      simp only [List.map_cons, List.nodup_cons] at hnd
      exact hnd.2
    rcases List.mem_cons.mp hp with rfl | hp'
    · simp [List.lookup]
    · have hne : p.1 ≠ q.1 := by
        simp only [List.map_cons, List.nodup_cons] at hnd
        exact fun h => hnd.1 (h ▸ List.mem_map_of_mem Prod.fst hp')
      simp only [List.map_cons, List.lookup]
      rw [show (p.1 == q.1) = false from beq_eq_false_iff_ne.mpr hne]
      exact ih hnd2 p hp'

/-- Key list of a mapped association list built from pairs. -/
lemma map_fst_map_entry {α β : Type} (f : String × α → β) (l : List (String × α)) :
    ((l.map fun q => (q.1, f q)).map Prod.fst) = l.map Prod.fst := by
  simp [List.map_map, Function.comp]

/- ### Cauchy-Schwarz for list sums, and the correlation facts built on it. -/

lemma cs_step (x y S A B : ℚ) (hS : S ^ 2 ≤ A * B) (hA : 0 ≤ A) (hB : 0 ≤ B) :
    (x * y + S) ^ 2 ≤ (x ^ 2 + A) * (y ^ 2 + B) := by
  by_cases hB0 : B = 0
  · subst hB0
    have hS2 : S ^ 2 ≤ 0 := by simpa using hS
    have hS0 : S = 0 := pow_eq_zero_iff (n := 2) (by norm_num) |>.mp
      (le_antisymm hS2 (sq_nonneg S))
    subst hS0
    nlinarith [mul_nonneg hA (sq_nonneg y)]
  · have hB' : 0 < B := lt_of_le_of_ne hB (Ne.symm hB0)
    nlinarith [sq_nonneg (x * B - y * S), mul_nonneg (sq_nonneg y) (sub_nonneg.mpr hS),
      mul_nonneg hB'.le (sub_nonneg.mpr hS)]

lemma sum_sq_nonneg {α : Type} (l : List α) (f : α → ℚ) :
    0 ≤ (l.map fun a => f a ^ 2).sum := by
  apply List.sum_nonneg
  intro x hx
  obtain ⟨a, _, rfl⟩ := List.mem_map.mp hx
  positivity

lemma list_cauchy_schwarz {α : Type} (l : List α) (f g : α → ℚ) :
    ((l.map fun a => f a * g a).sum) ^ 2 ≤
      ((l.map fun a => f a ^ 2).sum) * ((l.map fun a => g a ^ 2).sum) := by
  induction l with
  | nil => simp
  | cons a l ih =>
    simp only [List.map_cons, List.sum_cons]
    exact cs_step (f a) (g a) _ _ _ ih (sum_sq_nonneg l f) (sum_sq_nonneg l g)

lemma corrSums_sq_le (ps : List (ℚ × ℚ)) :
    (corrSums ps).1 ^ 2 ≤ (corrSums ps).2.1 * (corrSums ps).2.2 := by
  unfold corrSums
  exact list_cauchy_schwarz ps _ _

lemma corrSums_sxx_nonneg (ps : List (ℚ × ℚ)) : 0 ≤ (corrSums ps).2.1 := by
  unfold corrSums
  exact sum_sq_nonneg ps _

lemma corrSums_syy_nonneg (ps : List (ℚ × ℚ)) : 0 ≤ (corrSums ps).2.2 := by
  unfold corrSums
  exact sum_sq_nonneg ps _

lemma corrSums_swap (ps : List (ℚ × ℚ)) :
    corrSums (ps.map Prod.swap) =
      ((corrSums ps).1, (corrSums ps).2.2, (corrSums ps).2.1) := by
  unfold corrSums
  simp only [List.length_map, List.map_map]
  have hfst : (ps.map (Prod.fst ∘ Prod.swap)) = ps.map Prod.snd := by
    simp [Function.comp, Prod.swap]
  have hsnd : (ps.map (Prod.snd ∘ Prod.swap)) = ps.map Prod.fst := by
    simp [Function.comp, Prod.swap]
  rw [hfst, hsnd]
  refine Prod.ext ?_ (Prod.ext ?_ ?_) <;> simp only
  · rw [show ∀ F : ℚ × ℚ → ℚ, ps.map (F ∘ Prod.swap) = ps.map fun p => F p.swap from
      fun F => rfl]
    exact congrArg List.sum (List.map_congr_left fun p _ => mul_comm _ _)
  · rfl
  · rfl

lemma completePairs_swap (xs ys : List Cell) :
    completePairs ys xs = (completePairs xs ys).map Prod.swap := by
  unfold completePairs
  rw [← List.zip_swap xs ys, List.filterMap_map, List.map_filterMap]
  apply List.filterMap_congr
  intro p _
  rcases p with ⟨a, b⟩
  cases a <;> cases b <;> simp [Function.comp, Prod.swap, Cell.toQ]

/- ### C3 and C4. -/

/-- Claim C3: for every dataset, the EDA summary has its column list sorted
alphabetically, and the keys of dtypes, missing_values, and both the outer
and inner keys of correlation are in alphabetical order. -/
theorem eda_keys_sorted (df : DataFrame) :
    List.Sorted (· ≤ ·) (perform_eda df).columns ∧
    List.Sorted (· ≤ ·) ((perform_eda df).dtypes.map Prod.fst) ∧
    List.Sorted (· ≤ ·) ((perform_eda df).missing_values.map Prod.fst) ∧
    List.Sorted (· ≤ ·) ((perform_eda df).correlation.map Prod.fst) ∧
    (perform_eda df).correlation.Forall
      (fun row => List.Sorted (· ≤ ·) (row.2.map Prod.fst)) := by
  refine ⟨sortStrings_sorted _, sortByKey_sorted_keys _, sortByKey_sorted_keys _,
    sortByKey_sorted_keys _, ?_⟩
  rw [List.forall_iff_forall_mem]
  intro row hrow
  have hrow' := (sortByKey_perm _).subset hrow
  obtain ⟨p, _, rfl⟩ := List.mem_map.mp hrow'
  exact sortByKey_sorted_keys _

lemma isnullSum_eq_countNa (c : Col) :
    isnullSum c = c.cells.countP fun x => x == Cell.na := by
  unfold isnullSum
  induction c.cells with
  | nil => rfl
  | cons x xs ih =>
    cases x <;> simp_all [List.count_cons, List.countP_cons, Cell.isna]

/-- Claim C4: the EDA shape is the actual row and column count, and the
missing_values entry of every column is its true count of missing cells. -/
theorem eda_shape_missing_correct (df : DataFrame) :
    (perform_eda df).shape = (df.nrows, df.cols.length) ∧
    (∀ p ∈ df.cols, p.2.cells.length = df.nrows) ∧
    ∀ p ∈ df.cols, (perform_eda df).missing_values.lookup p.1 =
      some (p.2.cells.countP fun x => x == Cell.na) := by
  refine ⟨rfl, df.len_eq, ?_⟩
  intro p hp
  show (sortByKey (df.cols.map fun q => (q.1, isnullSum q.2))).lookup p.1 = _
  rw [lookup_sortByKey _ (by rw [map_fst_map_entry]; exact df.names_nodup),
    lookup_map_entry _ df.cols df.names_nodup p hp, isnullSum_eq_countNa]

/- ### C5: correlation coefficients are null or in the unit interval, and the
matrix is symmetric. -/

/-- Nested lookup into the EDA correlation mapping: the entry for outer key A
and inner key B, when both rows exist. -/
def corrEntryAt (e : EDA) (A B : String) : Option (Option NumF) :=
  (e.correlation.lookup A).bind fun row => row.lookup B

lemma numericCols_nodup (df : DataFrame) : (df.numericCols.map Prod.fst).Nodup := by
  have hsub : List.Sublist (df.numericCols.map Prod.fst) (df.cols.map Prod.fst) :=
    (List.filter_sublist df.cols).map Prod.fst
  exact List.Sublist.nodup hsub df.names_nodup

lemma corr_entry_lookup (df : DataFrame) {p q : String × Col}
    (hp : p ∈ df.numericCols) (hq : q ∈ df.numericCols) :
    corrEntryAt (perform_eda df) p.1 q.1 =
      some (replaceNonFinite (corrCell p.2 q.2)) := by
  have hnd := numericCols_nodup df
  unfold corrEntryAt
  have h1 : (perform_eda df).correlation =
      sortByKey ((df.numericCols).map fun r =>
        (r.1, sortByKey ((df.numericCols).map fun s =>
          (s.1, replaceNonFinite (corrCell r.2 s.2))))) := rfl
  rw [h1, lookup_sortByKey _ (by rw [map_fst_map_entry]; exact hnd),
    lookup_map_entry _ _ hnd p hp]
  simp only [Option.some_bind]
  rw [lookup_sortByKey _ (by rw [map_fst_map_entry]; exact hnd),
    lookup_map_entry _ _ hnd q hq]

lemma corrOfPairs_bound (ps : List (ℚ × ℚ)) (v : NumF)
    (h : replaceNonFinite (corrOfPairs ps) = some v) :
    -1 ≤ v.toReal ∧ v.toReal ≤ 1 := by
  unfold corrOfPairs at h
  by_cases hz : (corrSums ps).2.1 * (corrSums ps).2.2 = 0
  · rw [if_pos hz] at h
    simp [replaceNonFinite, NumF.isFinite] at h
  · rw [if_neg hz] at h
    simp only [replaceNonFinite, NumF.isFinite, if_pos] at h
    obtain rfl : NumF.corrv (corrSums ps).1 (corrSums ps).2.1 (corrSums ps).2.2 = v :=
      Option.some.inj h
    have hcs := corrSums_sq_le ps
    have hA := corrSums_sxx_nonneg ps
    have hB := corrSums_syy_nonneg ps
    have hABpos : 0 < (corrSums ps).2.1 * (corrSums ps).2.2 :=
      lt_of_le_of_ne (mul_nonneg hA hB) (Ne.symm hz)
    have hcsR : ((corrSums ps).1 : ℝ) ^ 2 ≤
        ((corrSums ps).2.1 : ℝ) * ((corrSums ps).2.2 : ℝ) := by
      exact_mod_cast hcs
    have hABposR : (0 : ℝ) < ((corrSums ps).2.1 : ℝ) * ((corrSums ps).2.2 : ℝ) := by
      exact_mod_cast hABpos
    have hsq : 0 < Real.sqrt (((corrSums ps).2.1 : ℝ) * ((corrSums ps).2.2 : ℝ)) :=
      Real.sqrt_pos.mpr hABposR
    have habs : |((corrSums ps).1 : ℝ)| ≤
        Real.sqrt (((corrSums ps).2.1 : ℝ) * ((corrSums ps).2.2 : ℝ)) := by
      rw [← Real.sqrt_sq_eq_abs]
      exact Real.sqrt_le_sqrt hcsR
    have hfin : |NumF.toReal (.corrv (corrSums ps).1 (corrSums ps).2.1 (corrSums ps).2.2)| ≤ 1 := by
      show |((corrSums ps).1 : ℝ) / Real.sqrt (((corrSums ps).2.1 : ℝ) * ((corrSums ps).2.2 : ℝ))| ≤ 1
      rw [abs_div, abs_of_nonneg (Real.sqrt_nonneg _)]
      exact (div_le_one hsq).mpr habs
    exact abs_le.mp hfin

lemma corrCell_symm_map (x y : Col) :
    (replaceNonFinite (corrCell y x)).map NumF.toReal =
      (replaceNonFinite (corrCell x y)).map NumF.toReal := by
  unfold corrCell
  rw [completePairs_swap x.cells y.cells]
  unfold corrOfPairs
  rw [corrSums_swap (completePairs x.cells y.cells)]
  dsimp only
  by_cases hz :
      (corrSums (completePairs x.cells y.cells)).2.1 *
        (corrSums (completePairs x.cells y.cells)).2.2 = 0
  · rw [if_pos (by rw [mul_comm] at hz; exact hz), if_pos hz]
  · rw [if_neg (fun hc => hz (by rw [mul_comm] at hc; exact hc)), if_neg hz]
    simp only [replaceNonFinite, NumF.isFinite, if_pos, Option.map_some]
    refine congrArg some ?_
    show (_ : ℝ) / Real.sqrt (_ * _) = _ / Real.sqrt (_ * _)
    rw [mul_comm]

/-- Claim C5: every correlation entry between numeric columns is null or a
coefficient in the interval from -1 to 1, and the mapping is symmetric. -/
theorem eda_corr_bounded_symmetric (df : DataFrame) (p q : String × Col)
    (hp : p ∈ df.numericCols) (hq : q ∈ df.numericCols) :
    (corrEntryAt (perform_eda df) p.1 q.1 = some none ∨
      ∃ v, corrEntryAt (perform_eda df) p.1 q.1 = some (some v) ∧
        -1 ≤ v.toReal ∧ v.toReal ≤ 1) ∧
    (corrEntryAt (perform_eda df) p.1 q.1).map (Option.map NumF.toReal) =
      (corrEntryAt (perform_eda df) q.1 p.1).map (Option.map NumF.toReal) := by
  rw [corr_entry_lookup df hp hq, corr_entry_lookup df hq hp]
  constructor
  · cases hrep : replaceNonFinite (corrCell p.2 q.2) with
    | none => exact Or.inl rfl
    | some v => exact Or.inr ⟨v, rfl, corrOfPairs_bound _ v hrep⟩
  · exact congrArg some (corrCell_symm_map p.2 q.2).symm

/- ### C6: the serialized EDA summary carries no non-finite number. -/

/-- JSON values as produced by the response serializer; numeric leaves carry
idealized floats, so a NaN or infinity leaf is representable and would make
strict serialization (allow_nan disabled, as in the response layer) raise. -/
inductive Json where
  | null
  | num (v : NumF)
  | nat (n : Nat)
  | str (s : String)
  | jbool (b : Bool)
  | arr (xs : List Json)
  | obj (kvs : List (String × Json))

/-- JSON image of a describe cell. -/
def svalJson : SVal → Json
  | .num v => .num v
  | .strv s => .str s
  | .boolv b => .jbool b

/-- None serializes to null, a present value through the given encoder. -/
def optJson {α : Type} (f : α → Json) : Option α → Json
  | none => .null
  | some v => f v

/-- JSON serialization of the EDA summary, field by field. -/
def edaToJson (e : EDA) : Json :=
  .obj [("shape", .arr [.nat e.shape.1, .nat e.shape.2]),
        ("columns", .arr (e.columns.map .str)),
        ("dtypes", .obj (e.dtypes.map fun p => (p.1, .str p.2))),
        ("missing_values", .obj (e.missing_values.map fun p => (p.1, .nat p.2))),
        ("correlation", .obj (e.correlation.map fun p =>
          (p.1, .obj (p.2.map fun q => (q.1, optJson Json.num q.2))))),
        ("summary_stats", .obj (e.summary_stats.map fun p =>
          (p.1, .obj (p.2.map fun q => (q.1, optJson svalJson q.2)))))]

mutual

/-- Every numeric leaf of a JSON value is finite: no NaN or infinity literal
appears, so strict serialization succeeds and round-trips. -/
def Json.allFinite : Json → Bool
  | .null => true
  | .num v => v.isFinite
  | .nat _ => true
  | .str _ => true
  | .jbool _ => true
  | .arr xs => Json.allFiniteList xs
  | .obj kvs => Json.allFiniteKvs kvs

/-- allFinite over an array body. -/
def Json.allFiniteList : List Json → Bool
  | [] => true
  | x :: xs => Json.allFinite x && Json.allFiniteList xs

/-- allFinite over an object body. -/
def Json.allFiniteKvs : List (String × Json) → Bool
  | [] => true
  | kv :: kvs => Json.allFinite kv.2 && Json.allFiniteKvs kvs

end

lemma allFiniteList_eq_all (xs : List Json) : Json.allFiniteList xs = xs.all Json.allFinite := by
  induction xs with
  | nil => rfl
  | cons x xs ih => simp [Json.allFiniteList, ih]

lemma allFiniteKvs_eq_all (kvs : List (String × Json)) :
    Json.allFiniteKvs kvs = kvs.all fun kv => kv.2.allFinite := by
  induction kvs with
  | nil => rfl
  | cons kv kvs ih => simp [Json.allFiniteKvs, ih]

lemma allFinite_arr (xs : List Json) : (Json.arr xs).allFinite = xs.all Json.allFinite := by
  rw [Json.allFinite, allFiniteList_eq_all]

lemma allFinite_obj (kvs : List (String × Json)) :
    (Json.obj kvs).allFinite = kvs.all fun kv => kv.2.allFinite := by
  rw [Json.allFinite, allFiniteKvs_eq_all]

lemma optJson_replace_finite (v : NumF) :
    (optJson Json.num (replaceNonFinite v)).allFinite = true := by
  cases v <;> simp [replaceNonFinite, NumF.isFinite, optJson, Json.allFinite]

lemma optJson_replaceS_finite (sv : SVal) :
    (optJson svalJson (replaceNonFiniteS sv)).allFinite = true := by
  cases sv with
  | num x => cases x <;>
      simp [replaceNonFiniteS, NumF.isFinite, optJson, svalJson, Json.allFinite]
  | strv s => simp [replaceNonFiniteS, optJson, svalJson, Json.allFinite]
  | boolv b => simp [replaceNonFiniteS, optJson, svalJson, Json.allFinite]

/-- Claim C6: every numeric value in the serialized EDA summary is finite —
missing, NaN and infinite values were normalized to null by perform_eda, so
strict JSON serialization neither raises nor emits a NaN or Infinity
literal. -/
theorem eda_json_no_nonfinite (df : DataFrame) :
    (edaToJson (perform_eda df)).allFinite = true := by
  have hcorr : ∀ row ∈ (perform_eda df).correlation, ∀ e ∈ row.2,
      (optJson Json.num e.2).allFinite = true := by
    intro row hrow e he
    have hrow' := (sortByKey_perm _).subset hrow
    obtain ⟨p, _, rfl⟩ := List.mem_map.mp hrow'
    have he' := (sortByKey_perm _).subset he
    obtain ⟨q, _, rfl⟩ := List.mem_map.mp he'
    exact optJson_replace_finite _
  have hstats : ∀ colst ∈ (perform_eda df).summary_stats, ∀ e ∈ colst.2,
      (optJson svalJson e.2).allFinite = true := by
    intro colst hc e he
    by_cases hemp : df.cols.isEmpty
    · rw [show (perform_eda df).summary_stats = [] from by
        simp [perform_eda, hemp]] at hc
      cases hc
    · rw [show (perform_eda df).summary_stats = df.cols.map (fun p =>
          (p.1, (statIndex df).map fun s =>
            (s, replaceNonFiniteS (describeEntry p.2 s)))) from by
        simp [perform_eda, hemp]] at hc
      obtain ⟨p, _, rfl⟩ := List.mem_map.mp hc
      obtain ⟨s, _, rfl⟩ := List.mem_map.mp he
      exact optJson_replaceS_finite _
  unfold edaToJson
  rw [allFinite_obj]
  simp only [List.all_cons, List.all_nil, Bool.and_eq_true, Bool.and_true]
  refine ⟨?_, ?_, ?_, ?_, ?_, ?_⟩
  · simp [Json.allFinite, Json.allFiniteList]
  · show (Json.arr _).allFinite = true
    rw [allFinite_arr]
    simp only [List.all_eq_true]
    intro c hc
    obtain ⟨s, _, rfl⟩ := List.mem_map.mp hc
    simp [Json.allFinite]
  · show (Json.obj _).allFinite = true
    rw [allFinite_obj]
    simp only [List.all_eq_true]
    intro kv hkv
    obtain ⟨p, _, rfl⟩ := List.mem_map.mp hkv
    simp [Json.allFinite]
  · show (Json.obj _).allFinite = true
    rw [allFinite_obj]
    simp only [List.all_eq_true]
    intro kv hkv
    obtain ⟨p, _, rfl⟩ := List.mem_map.mp hkv
    simp [Json.allFinite]
  · show (Json.obj _).allFinite = true
    rw [allFinite_obj]
    simp only [List.all_eq_true]
    intro kv hkv
    obtain ⟨row, hrow, rfl⟩ := List.mem_map.mp hkv
    show (Json.obj _).allFinite = true
    rw [allFinite_obj]
    simp only [List.all_eq_true]
    intro kv2 hkv2
    obtain ⟨e, he, rfl⟩ := List.mem_map.mp hkv2
    exact hcorr row hrow e he
  · show (Json.obj _).allFinite = true
    rw [allFinite_obj]
    simp only [List.all_eq_true]
    intro kv hkv
    obtain ⟨colst, hc, rfl⟩ := List.mem_map.mp hkv
    show (Json.obj _).allFinite = true
    rw [allFinite_obj]
    simp only [List.all_eq_true]
    intro kv2 hkv2
    obtain ⟨e, he, rfl⟩ := List.mem_map.mp hkv2
    exact hstats colst hc e he

/- ### C2: the type-coercion utility. -/

/-- Claim C2 counterexample: a library-native NaN float is a missing-value
marker, yet _to_py does not return null on it — the isinstance branch runs
first and returns the plain NaN float. -/
theorem to_py_missing_marker_counterexample :
    isMissingMarker (.npFloat .nan) = true ∧
    _to_py (.npFloat .nan) ≠ .pyNone ∧
    _to_py (.npFloat .nan) = .pyFloat .nan := by
  decide

/-- Claim C2 (amended): _to_py converts library-native numeric scalars first,
including a library-native NaN, which therefore comes back as a plain NaN
rather than null; any other missing-value marker maps to null; everything
else is returned unchanged.  The function is total: the pd.isna failure on
array-like input falls into the unchanged case. -/
theorem to_py_amended (v : Scalar) :
    (isNpNumeric v = true → _to_py v = plainOf v) ∧
    (isNpNumeric v = false → isMissingMarker v = true → _to_py v = .pyNone) ∧
    (isNpNumeric v = false → isMissingMarker v = false → _to_py v = v) := by
  cases v with
  | npFloat x => cases x <;> simp [isNpNumeric, isMissingMarker, _to_py, plainOf, pdIsna]
  | pyFloat x => cases x <;> simp [isNpNumeric, isMissingMarker, _to_py, plainOf, pdIsna]
  | _ => simp [isNpNumeric, isMissingMarker, _to_py, plainOf, pdIsna]

theorem to_py_amended_witness :
    (isNpNumeric (.npInt 3) = true ∧ _to_py (.npInt 3) = plainOf (.npInt 3)) ∧
    (isNpNumeric .pyNone = false ∧ isMissingMarker .pyNone = true ∧
      _to_py .pyNone = .pyNone) ∧
    (isNpNumeric (.pyStr "x") = false ∧ isMissingMarker (.pyStr "x") = false ∧
      _to_py (.pyStr "x") = .pyStr "x") :=
  ⟨⟨by decide, (to_py_amended (.npInt 3)).1 (by decide)⟩,
   ⟨by decide, by decide, (to_py_amended .pyNone).2.1 (by decide) (by decide)⟩,
   ⟨by decide, by decide, (to_py_amended (.pyStr "x")).2.2 (by decide) (by decide)⟩⟩

/- ### C9: the CSV parse fallback chain. -/

/-- Claim C9: the reader returns the first successful parse attempt, in
order; when all three attempts fail it re-raises the last error, and the
upload endpoint surfaces that message to the client. -/
theorem read_csv_fallback_order (df : DataFrame) (a2 a3 : Except String DataFrame)
    (e1 e2 e3 : String) (st : ServerState) (filename : String) (toks : Nat → String) :
    readCsvBytes (.ok df) a2 a3 = .ok df ∧
    readCsvBytes (.error e1) (.ok df) a3 = .ok df ∧
    readCsvBytes (.error e1) (.error e2) (.ok df) = .ok df ∧
    readCsvBytes (.error e1) (.error e2) (.error e3) = .error e3 ∧
    (pyEndsWith (pyLower filename) ".csv" = true →
      (upload_csv st filename (.error e1) (.error e2) (.error e3) toks).1 =
        .err 400 ("Failed to read CSV: " ++ e3)) := by
  refine ⟨rfl, rfl, rfl, rfl, ?_⟩
  intro h
  simp [upload_csv, h, readCsvBytes]

def dfEmpty : DataFrame := ⟨[], 0, by decide, by decide⟩

def stEmpty : ServerState := ⟨none, none, fun _ => none⟩

theorem read_csv_fallback_order_witness :
    pyEndsWith (pyLower "data.csv") ".csv" = true ∧
    (upload_csv stEmpty "data.csv" (.error "b1") (.error "b2") (.error "b3")
      (fun _ => "t")).1 = .err 400 ("Failed to read CSV: " ++ "b3") :=
  ⟨by decide,
   (read_csv_fallback_order dfEmpty (.error "b2") (.error "b3") "b1" "b2" "b3"
     stEmpty "data.csv" (fun _ => "t")).2.2.2.2 (by decide)⟩

/- ### C10: a failed upload keeps the globals but empties the plot
directory. -/

/-- Claim C10: when the extension check passes but the CSV content fails to
parse, the response is a 400 carrying the last parse error, the in-memory
dataset and dataset name keep their previous values, and the plot directory
for the sanitized dataset name has already been deleted and recreated empty,
erasing previously generated chart artifacts of that name. -/
theorem failed_upload_preserves_globals_clears_dir (st : ServerState)
    (filename : String) (a1 a2 a3 : Except String DataFrame) (e : String)
    (toks : Nat → String)
    (hcsv : pyEndsWith (pyLower filename) ".csv" = true)
    (hparse : readCsvBytes a1 a2 a3 = .error e) :
    (upload_csv st filename a1 a2 a3 toks).1 =
      .err 400 ("Failed to read CSV: " ++ e) ∧
    (upload_csv st filename a1 a2 a3 toks).2.df_global = st.df_global ∧
    (upload_csv st filename a1 a2 a3 toks).2.dataset_name_global =
      st.dataset_name_global ∧
    (upload_csv st filename a1 a2 a3 toks).2.fs
      (plotsRoot ++ "/" ++ sanitizeName (splitextStem filename)) = some [] := by
  simp [upload_csv, hcsv, hparse]

theorem failed_upload_witness :
    pyEndsWith (pyLower "data.csv") ".csv" = true ∧
    readCsvBytes (Except.error "b1") (Except.error "b2") (Except.error "b3") =
      Except.error "b3" ∧
    (upload_csv stEmpty "data.csv" (.error "b1") (.error "b2") (.error "b3")
      (fun _ => "t")).2.fs
      (plotsRoot ++ "/" ++ sanitizeName (splitextStem "data.csv")) = some [] :=
  ⟨by decide, rfl,
   (failed_upload_preserves_globals_clears_dir stEmpty "data.csv"
     (.error "b1") (.error "b2") (.error "b3") "b3" (fun _ => "t")
     (by decide) rfl).2.2.2⟩

/- ### C1: generate_chart validation and the one-file side-effect
contract. -/

/-- The side-effect contract of one chart outcome: an error writes nothing,
a success writes exactly the returned file. -/
def okOneFile (o : ChartOutcome) : Prop :=
  (∀ e, o.result = .error e → o.written = []) ∧
  (∀ p d, o.result = .ok (p, d) → o.written = [p])

lemma okOneFile_saved (p : String) (d : PlotData) :
    okOneFile ⟨.ok (p, d), [p]⟩ := by
  constructor
  · intro e h
    cases h
  · intro p' d' h
    injection h with h1
    injection h1 with h2 h3
    rw [h2]

lemma okOneFile_failed (e : ChartErr) : okOneFile ⟨.error e, []⟩ := by
  constructor
  · intro e' _
    rfl
  · intro p' d' h
    cases h

lemma okOneFile_renderChart (df : DataFrame) (ct : String) (cols : List String)
    (path : String) : okOneFile (renderChart df ct cols path) := by
  unfold renderChart
  dsimp only
  by_cases h1 : ct = "histogram"
  · rw [if_pos h1]
    exact okOneFile_saved _ _
  rw [if_neg h1]
  by_cases h2 : ct = "kde"
  · rw [if_pos h2]
    exact okOneFile_saved _ _
  rw [if_neg h2]
  by_cases h3 : ct = "box"
  · rw [if_pos h3]
    exact okOneFile_saved _ _
  rw [if_neg h3]
  by_cases h4 : ct = "violin"
  · rw [if_pos h4]
    exact okOneFile_saved _ _
  rw [if_neg h4]
  by_cases h5 : ct = "countplot"
  · rw [if_pos h5]
    exact okOneFile_saved _ _
  rw [if_neg h5]
  by_cases h6 : ct = "pie"
  · rw [if_pos h6]
    exact okOneFile_saved _ _
  rw [if_neg h6]
  by_cases h7 : ct = "scatter"
  · rw [if_pos h7]
    exact okOneFile_saved _ _
  rw [if_neg h7]
  by_cases h8 : ct = "line"
  · rw [if_pos h8]
    exact okOneFile_saved _ _
  rw [if_neg h8]
  by_cases h9 : ct = "bar"
  · rw [if_pos h9]
    by_cases h9b : (df.getColD (cols.getD 1 "")).dtype.isNumericDtype = true
    · rw [if_pos h9b]
      exact okOneFile_saved _ _
    · rw [if_neg h9b]
      exact okOneFile_saved _ _
  rw [if_neg h9]
  by_cases h10 : ct = "regplot"
  · rw [if_pos h10]
    exact okOneFile_saved _ _
  rw [if_neg h10]
  by_cases h11 : ct = "pairplot"
  · rw [if_pos h11]
    exact okOneFile_saved _ _
  rw [if_neg h11]
  by_cases h12 : ct = "heatmap"
  · rw [if_pos h12]
    by_cases h12b : ((selectCols df cols).filter fun p => p.2.dtype.isNumber).length < 2
    · rw [if_pos h12b]
      exact okOneFile_failed _
    · rw [if_neg h12b]
      exact okOneFile_saved _ _
  rw [if_neg h12]
  exact okOneFile_failed _

lemma renderChart_error_written (df : DataFrame) (ct : String) (cols : List String)
    (path : String) (e : ChartErr) :
    (renderChart df ct cols path).result = .error e →
    (renderChart df ct cols path).written = [] :=
  (okOneFile_renderChart df ct cols path).1 e

lemma renderChart_ok_written (df : DataFrame) (ct : String) (cols : List String)
    (path p : String) (d : PlotData) :
    (renderChart df ct cols path).result = .ok (p, d) →
    (renderChart df ct cols path).written = [p] :=
  (okOneFile_renderChart df ct cols path).2 p d

lemma generate_chart_cases (df : DataFrame) (ct : String) (cols : List String)
    (dir tok : String) :
    (∃ e, generate_chart df ct cols dir tok = ⟨.error e, []⟩) ∨
    (∃ path, generate_chart df ct cols dir tok = renderChart df ct cols path) := by
  unfold generate_chart
  cases hreq : chartReq ct with
  | none => exact Or.inl ⟨_, rfl⟩
  | some mm =>
    obtain ⟨mn, mx⟩ := mm
    dsimp only
    by_cases hc : countOk mn mx cols.length = true
    · rw [if_neg (by simp [hc])]
      cases hfind : cols.find? fun c => !(df.names.contains c) with
      | some c => exact Or.inl ⟨_, rfl⟩
      | none => exact Or.inr ⟨_, rfl⟩
    · rw [if_pos (by simp only [Bool.not_eq_true'] at hc ⊢; simpa using hc)]
      exact Or.inl ⟨_, rfl⟩

/-- Claim C1: an unknown chart type, a column count outside the declared
bounds, or a missing column each raise the corresponding error with zero
files written, and every error leaves zero files; a successful call writes
exactly the one returned file. -/
theorem generate_chart_validation (df : DataFrame) (ct : String)
    (cols : List String) (dir tok : String) :
    (chartReq ct = none →
      generate_chart df ct cols dir tok = ⟨.error (.unsupported ct), []⟩) ∧
    (∀ mn mx, chartReq ct = some (mn, mx) → countOk mn mx cols.length = false →
      generate_chart df ct cols dir tok =
        ⟨.error (.badCount ct mn mx cols.length), []⟩) ∧
    (∀ mn mx, chartReq ct = some (mn, mx) → countOk mn mx cols.length = true →
      (∃ c ∈ cols, c ∉ df.names) →
      ∃ c, c ∈ cols ∧ c ∉ df.names ∧
        generate_chart df ct cols dir tok = ⟨.error (.colNotFound c), []⟩) ∧
    (∀ e, (generate_chart df ct cols dir tok).result = .error e →
      (generate_chart df ct cols dir tok).written = []) ∧
    (∀ p d, (generate_chart df ct cols dir tok).result = .ok (p, d) →
      (generate_chart df ct cols dir tok).written = [p]) := by
  refine ⟨?_, ?_, ?_, ?_, ?_⟩
  · intro h
    simp [generate_chart, h]
  · intro mn mx h hc
    simp [generate_chart, h, hc]
  · intro mn mx h hc hex
    have hex' : ∃ c ∈ cols, (!(df.names.contains c)) = true := by
      obtain ⟨c, h1, h2⟩ := hex
      refine ⟨c, h1, ?_⟩
      simp only [Bool.not_eq_true']
      simpa using h2
    obtain ⟨c', hfind⟩ := Option.isSome_iff_exists.mp (List.find?_isSome.mpr hex')
    refine ⟨c', List.mem_of_find?_eq_some hfind, ?_, ?_⟩
    · have hp := List.find?_some hfind
      simp only [Bool.not_eq_true'] at hp
      simpa using hp
    · simp only [generate_chart]
      rw [h]
      dsimp only
      rw [if_neg (by simp [hc]), hfind]
  · intro e h
    rcases generate_chart_cases df ct cols dir tok with ⟨e', hE⟩ | ⟨path, hR⟩
    · rw [hE]
    · rw [hR] at h ⊢
      exact renderChart_error_written df ct cols path e h
  · intro p d h
    rcases generate_chart_cases df ct cols dir tok with ⟨e', hE⟩ | ⟨path, hR⟩
    · rw [hE] at h
      simp at h
    · rw [hR] at h ⊢
      exact renderChart_ok_written df ct cols path p d h

/- ### C7: the heatmap numeric restriction. -/

lemma renderChart_heatmap (df : DataFrame) (cols : List String) (path : String) :
    renderChart df "heatmap" cols path =
      if ((selectCols df cols).filter fun p => p.2.dtype.isNumber).length < 2 then
        ⟨.error .heatmapLt2, []⟩
      else
        ⟨.ok (path, .heatmap (heatmapMatrix
          ((selectCols df cols).filter fun p => p.2.dtype.isNumber) df.nrows)),
         [path]⟩ := by
  simp [renderChart]

lemma find?_names_none (df : DataFrame) (cols : List String)
    (hcols : ∀ c ∈ cols, c ∈ df.names) :
    (cols.find? fun c => !(df.names.contains c)) = none := by
  rw [List.find?_eq_none]
  intro c hc
  simp only [Bool.not_eq_true']
  simpa using hcols c hc

/-- Claim C7: for a heatmap request over existing columns, the request list
is first restricted to its numeric subset; the call fails with the domain
error exactly when fewer than two numeric columns remain, and otherwise
renders the correlation matrix of the restricted selection, writing the one
file. -/
theorem heatmap_numeric_restriction (df : DataFrame) (cols : List String)
    (dir tok : String) (hlen : 2 ≤ cols.length)
    (hcols : ∀ c ∈ cols, c ∈ df.names) :
    ((generate_chart df "heatmap" cols dir tok).result = .error .heatmapLt2 ↔
      ((selectCols df cols).filter fun p => p.2.dtype.isNumber).length < 2) ∧
    ((∃ e, (generate_chart df "heatmap" cols dir tok).result = .error e) ↔
      ((selectCols df cols).filter fun p => p.2.dtype.isNumber).length < 2) ∧
    (2 ≤ ((selectCols df cols).filter fun p => p.2.dtype.isNumber).length →
      ∃ p, (generate_chart df "heatmap" cols dir tok).result =
          .ok (p, .heatmap (heatmapMatrix
            ((selectCols df cols).filter fun q => q.2.dtype.isNumber) df.nrows)) ∧
        (generate_chart df "heatmap" cols dir tok).written = [p]) := by
  have hcount : countOk 2 none cols.length = true := by
    simpa [countOk] using hlen
  have hgen : generate_chart df "heatmap" cols dir tok =
      renderChart df "heatmap" cols
        (dir ++ "/" ++ tok ++ "_" ++ "heatmap" ++ "_" ++
          String.intercalate "_" (cols.map fun c => c.replace " " "_") ++ ".png") := by
    simp only [generate_chart]
    rw [show chartReq "heatmap" = some (2, none) from rfl]
    dsimp only
    rw [if_neg (by simp [hcount]), find?_names_none df cols hcols]
  rw [hgen, renderChart_heatmap]
  by_cases hsel : ((selectCols df cols).filter fun p => p.2.dtype.isNumber).length < 2
  · rw [if_pos hsel]
    exact ⟨⟨fun _ => hsel, fun _ => rfl⟩, ⟨fun _ => hsel, fun _ => ⟨_, rfl⟩⟩,
      fun h2 => absurd hsel (by omega)⟩
  · rw [if_neg hsel]
    refine ⟨⟨fun h => absurd h (by simp), fun h => absurd h hsel⟩,
      ⟨fun h => ?_, fun h => absurd h hsel⟩, fun _ => ⟨_, rfl, rfl⟩⟩
    obtain ⟨e, he⟩ := h
    simp at he

/- ### C8: the two-column bar chart aggregates means or counts. -/

instance : IsTotal (Cell × Option ℚ) meanDesc where
  total a b := by
    unfold meanDesc
    cases ha : a.2 <;> cases hb : b.2 <;> simp [optGeB]
    exact le_total _ _

instance : IsTrans (Cell × Option ℚ) meanDesc where
  trans a b c hab hbc := by
    unfold meanDesc at *
    cases ha : a.2 <;> cases hb : b.2 <;> cases hc : c.2 <;>
      simp_all [optGeB] <;> exact le_trans hbc hab

instance : IsTotal (Cell × Nat) countDesc where
  total a b := le_total b.2 a.2

instance : IsTrans (Cell × Nat) countDesc where
  trans _ _ _ hab hbc := le_trans hbc hab

lemma dedupFirstSeen_subset : ∀ (l acc : List Cell) (c : Cell),
    c ∈ l.foldl (fun acc c => if acc.contains c then acc else acc ++ [c]) acc →
    c ∈ acc ∨ c ∈ l := by
  intro l
  induction l with
  | nil =>
    intro acc c hc
    exact Or.inl hc
  | cons a l ih =>
    intro acc c hc
    rcases ih _ c hc with hacc | hl
    · dsimp only at hacc
      by_cases hca : acc.contains a = true
      · rw [if_pos hca] at hacc
        exact Or.inl hacc
      · rw [if_neg hca] at hacc
        rcases List.mem_append.mp hacc with h | h
        · exact Or.inl h
        · simp at h
          exact Or.inr (h ▸ List.mem_cons_self a l)
    · exact Or.inr (List.mem_cons_of_mem a hl)

lemma groupKeys_mem (xs : List Cell) (k : Cell) (hk : k ∈ groupKeys xs) :
    k ∈ xs ∧ k.isna = false := by
  unfold groupKeys at hk
  have hk2 := (List.perm_insertionSort _ _).subset hk
  rcases dedupFirstSeen_subset _ [] k hk2 with h | h
  · cases h
  · have := List.mem_filter.mp h
    exact ⟨this.1, by simpa using this.2⟩

lemma barMeanData_facts (xs ys : List Cell) :
    (barMeanData xs ys).length ≤ 30 ∧
    List.Sorted meanDesc (barMeanData xs ys) ∧
    ∀ km ∈ barMeanData xs ys, km.1 ∈ xs ∧ km.1.isna = false := by
  refine ⟨by simpa [barMeanData] using Nat.min_le_left 30 _, ?_, ?_⟩
  · exact (List.sorted_insertionSort meanDesc _).sublist (List.take_sublist _ _)
  · intro km hkm
    have h1 := List.mem_of_mem_take hkm
    have h2 := (List.perm_insertionSort meanDesc _).subset h1
    obtain ⟨k, hk, rfl⟩ := List.mem_map.mp h2
    exact groupKeys_mem xs k hk

lemma barCountData_facts (xs ys : List Cell) :
    (barCountData xs ys).length ≤ 30 ∧
    List.Sorted countDesc (barCountData xs ys) ∧
    ∀ km ∈ barCountData xs ys, km.1 ∈ xs ∧ km.1.isna = false := by
  refine ⟨by simpa [barCountData] using Nat.min_le_left 30 _, ?_, ?_⟩
  · exact (List.sorted_insertionSort countDesc _).sublist (List.take_sublist _ _)
  · intro km hkm
    have h1 := List.mem_of_mem_take hkm
    have h2 := (List.perm_insertionSort countDesc _).subset h1
    obtain ⟨k, hk, rfl⟩ := List.mem_map.mp h2
    exact groupKeys_mem xs k hk

lemma renderChart_bar (df : DataFrame) (x y path : String) :
    renderChart df "bar" [x, y] path =
      if (df.getColD y).dtype.isNumericDtype then
        ⟨.ok (path, .barMean (barMeanData (df.getColD x).cells (df.getColD y).cells)),
         [path]⟩
      else
        ⟨.ok (path, .barCount (barCountData (df.getColD x).cells (df.getColD y).cells)),
         [path]⟩ := by
  simp [renderChart]

/-- Claim C8: a valid two-column bar request with x the first and y the
second column plots, when y has numeric dtype, the mean of y grouped by x,
and otherwise the count of y grouped by x — in both cases at most the top 30
groups, ordered by descending value, with every plotted group a non-missing
value of the x column; one file is written. -/
theorem bar_chart_semantics (df : DataFrame) (x y : String) (dir tok : String)
    (hx : x ∈ df.names) (hy : y ∈ df.names) :
    ∃ p, (generate_chart df "bar" [x, y] dir tok).written = [p] ∧
      ((df.getColD y).dtype.isNumericDtype = true →
        (generate_chart df "bar" [x, y] dir tok).result =
          .ok (p, .barMean (barMeanData (df.getColD x).cells (df.getColD y).cells))) ∧
      ((df.getColD y).dtype.isNumericDtype = false →
        (generate_chart df "bar" [x, y] dir tok).result =
          .ok (p, .barCount (barCountData (df.getColD x).cells (df.getColD y).cells))) ∧
      (barMeanData (df.getColD x).cells (df.getColD y).cells).length ≤ 30 ∧
      List.Sorted meanDesc (barMeanData (df.getColD x).cells (df.getColD y).cells) ∧
      (∀ km ∈ barMeanData (df.getColD x).cells (df.getColD y).cells,
        km.1 ∈ (df.getColD x).cells ∧ km.1.isna = false) ∧
      (barCountData (df.getColD x).cells (df.getColD y).cells).length ≤ 30 ∧
      List.Sorted countDesc (barCountData (df.getColD x).cells (df.getColD y).cells) ∧
      ∀ km ∈ barCountData (df.getColD x).cells (df.getColD y).cells,
        km.1 ∈ (df.getColD x).cells ∧ km.1.isna = false := by
  have hfind : (([x, y] : List String).find? fun c => !(df.names.contains c)) = none := by
    refine find?_names_none df [x, y] ?_
    intro c hc
    rcases List.mem_cons.mp hc with rfl | hc2
    · exact hx
    · rcases List.mem_cons.mp hc2 with rfl | hc3
      · exact hy
      · cases hc3
  have hgen : generate_chart df "bar" [x, y] dir tok =
      renderChart df "bar" [x, y]
        (dir ++ "/" ++ tok ++ "_" ++ "bar" ++ "_" ++
          String.intercalate "_" ([x, y].map fun c => c.replace " " "_") ++ ".png") := by
    simp only [generate_chart]
    rw [show chartReq "bar" = some (2, some 2) from rfl]
    dsimp only
    rw [if_neg (by simp [countOk]), hfind]
  rw [hgen, renderChart_bar]
  obtain ⟨hml, hms, hmm⟩ := barMeanData_facts (df.getColD x).cells (df.getColD y).cells
  obtain ⟨hcl, hcs, hcm⟩ := barCountData_facts (df.getColD x).cells (df.getColD y).cells
  by_cases hnum : (df.getColD y).dtype.isNumericDtype = true
  · rw [if_pos hnum]
    exact ⟨_, rfl, fun _ => rfl, fun hfalse => absurd hnum (by simp [hfalse]),
      hml, hms, hmm, hcl, hcs, hcm⟩
  · rw [if_neg hnum]
    exact ⟨_, rfl, fun htrue => absurd htrue hnum, fun _ => rfl,
      hml, hms, hmm, hcl, hcs, hcm⟩

/- ### Witness data and witnesses for the hypothesis-bearing claims. -/

def colA : Col := ⟨.int64, [.num 1, .num 2]⟩

def colB : Col := ⟨.float64, [.num 3, .na]⟩

def colC : Col := ⟨.object, [.str "u", .str "v"]⟩

def dfW : DataFrame :=
  ⟨[("a", colA), ("b", colB), ("c", colC)], 2, by decide, by decide⟩

theorem generate_chart_validation_witness :
    chartReq "sankey" = none ∧
    generate_chart dfW "sankey" ["a"] "plots/x" "tok" =
      ⟨.error (.unsupported "sankey"), []⟩ ∧
    chartReq "scatter" = some (2, some 2) ∧
    countOk 2 (some 2) 1 = false ∧
    generate_chart dfW "scatter" ["a"] "plots/x" "tok" =
      ⟨.error (.badCount "scatter" 2 (some 2) 1), []⟩ :=
  ⟨rfl, (generate_chart_validation dfW "sankey" ["a"] "plots/x" "tok").1 rfl,
   rfl, rfl,
   (generate_chart_validation dfW "scatter" ["a"] "plots/x" "tok").2.1
     2 (some 2) rfl rfl⟩

theorem eda_shape_missing_witness :
    ("b", colB) ∈ dfW.cols ∧
    (perform_eda dfW).missing_values.lookup "b" =
      some (colB.cells.countP fun x => x == Cell.na) :=
  ⟨by decide, (eda_shape_missing_correct dfW).2.2 ("b", colB) (by decide)⟩

theorem eda_corr_bounded_symmetric_witness :
    ("a", colA) ∈ dfW.numericCols ∧ ("b", colB) ∈ dfW.numericCols ∧
    ((corrEntryAt (perform_eda dfW) "a" "b" = some none ∨
      ∃ v, corrEntryAt (perform_eda dfW) "a" "b" = some (some v) ∧
        -1 ≤ v.toReal ∧ v.toReal ≤ 1) ∧
     (corrEntryAt (perform_eda dfW) "a" "b").map (Option.map NumF.toReal) =
       (corrEntryAt (perform_eda dfW) "b" "a").map (Option.map NumF.toReal)) :=
  ⟨by decide, by decide,
   eda_corr_bounded_symmetric dfW ("a", colA) ("b", colB) (by decide) (by decide)⟩

theorem heatmap_numeric_restriction_witness :
    2 ≤ (["a", "b"] : List String).length ∧
    (∀ c ∈ (["a", "b"] : List String), c ∈ dfW.names) ∧
    ((generate_chart dfW "heatmap" ["a", "b"] "plots/x" "tok").result =
        .error .heatmapLt2 ↔
      ((selectCols dfW ["a", "b"]).filter fun p => p.2.dtype.isNumber).length < 2) :=
  ⟨by decide, by decide,
   (heatmap_numeric_restriction dfW ["a", "b"] "plots/x" "tok"
     (by decide) (by decide)).1⟩

theorem bar_chart_semantics_witness :
    "c" ∈ dfW.names ∧ "a" ∈ dfW.names ∧
    ∃ p, (generate_chart dfW "bar" ["c", "a"] "plots/x" "tok").written = [p] ∧
      ((dfW.getColD "a").dtype.isNumericDtype = true →
        (generate_chart dfW "bar" ["c", "a"] "plots/x" "tok").result =
          .ok (p, .barMean (barMeanData (dfW.getColD "c").cells
            (dfW.getColD "a").cells))) ∧
      ((dfW.getColD "a").dtype.isNumericDtype = false →
        (generate_chart dfW "bar" ["c", "a"] "plots/x" "tok").result =
          .ok (p, .barCount (barCountData (dfW.getColD "c").cells
            (dfW.getColD "a").cells))) ∧
      (barMeanData (dfW.getColD "c").cells (dfW.getColD "a").cells).length ≤ 30 ∧
      List.Sorted meanDesc (barMeanData (dfW.getColD "c").cells
        (dfW.getColD "a").cells) ∧
      (∀ km ∈ barMeanData (dfW.getColD "c").cells (dfW.getColD "a").cells,
        km.1 ∈ (dfW.getColD "c").cells ∧ km.1.isna = false) ∧
      (barCountData (dfW.getColD "c").cells (dfW.getColD "a").cells).length ≤ 30 ∧
      List.Sorted countDesc (barCountData (dfW.getColD "c").cells
        (dfW.getColD "a").cells) ∧
      ∀ km ∈ barCountData (dfW.getColD "c").cells (dfW.getColD "a").cells,
        km.1 ∈ (dfW.getColD "c").cells ∧ km.1.isna = false :=
  ⟨by decide, by decide,
   bar_chart_semantics dfW "c" "a" "plots/x" "tok" (by decide) (by decide)⟩

end CsvBackend
